import Mathlib

/-!
Verification of the render scheduler of `acgraph.vector.Stage`
(src/src/vector/Stage.js).

The embedding models the scheduler state of a `Stage` instance: the suspend
counter (`suspended_`), the async-mode flag (`asyncMode_`), whether a container
is attached (`container_`, reduced to presence because only truthiness is
tested by the scheduler), the rendering-in-progress flag (`isRendering_`), the
per-tick DOM-change counter and quota (`currentDomChangesCount`,
`maxDomChanges`), which allocator is installed in the `acquireDomChanges`
slot, the dirtiness of the root layer (`rootLayer_.isDirty()`), and the
pending-clip queue (`clipsToRender_`, reduced to each clip's dirty flag, which
is the only thing the scheduler reads from a clip).

External collaborators (`rootLayer_.render()`, `clip.render()`, the image
loader, DOM attachment) live outside this file's source; their observable
effects are passed in as parameters where the scheduler consults them.
JavaScript numbers holding counters are modelled as `Int`.
-/

namespace AcGraph

/-- `acgraph.vector.Stage.DomChangeType`: the kinds of DOM change quotas. -/
inductive DomChangeType
  | ELEMENT_CREATE
  | ELEMENT_ADD
  | ELEMENT_REMOVE
  | APPLY_FILL
  | APPLY_STROKE
deriving DecidableEq, Repr

/-- Which function is installed in the `acquireDomChanges` slot:
`acquireDomChangesSync_` or `acquireDomChangesAsync_`. -/
inductive AllocPolicy
  | sync
  | async
deriving DecidableEq, Repr

/-- The error codes the scheduler throws (`acgraph.error.Code`). -/
inductive ErrorCode
  | CONTAINER_SHOULD_BE_DEFINED
  | DIRTY_AFTER_SYNC_RENDER
deriving DecidableEq, Repr

/-- `acgraph.vector.Stage.EventType` members dispatched by the scheduler. -/
inductive EventType
  | RENDER_START
  | RENDER_FINISH
deriving DecidableEq, Repr

/-- The scheduler state of one `acgraph.vector.Stage` instance. -/
structure Stage where
  /-- `suspended_`: rendering mode (>0 suspended, 0 instant). -/
  suspended : Int
  /-- `asyncMode_`: if the stage is in async mode. -/
  asyncMode : Bool
  /-- Whether `container_` is non-null. -/
  hasContainer : Bool
  /-- `isRendering_`: whether the stage is in process of rendering. -/
  isRendering : Bool
  /-- `currentDomChangesCount`: DOM changes done in one rendering frame. -/
  currentDomChangesCount : Int
  /-- `maxDomChanges`: maximum number of DOM changes in one frame (500). -/
  maxDomChanges : Int
  /-- Which allocator is installed in the `acquireDomChanges` slot. -/
  acquirePolicy : AllocPolicy
  /-- `rootLayer_.isDirty()`: dirtiness of the root layer. -/
  rootLayerDirty : Bool
  /-- `clipsToRender_`: dirty flag of each clip queued for render. -/
  clipsToRender : List Bool
deriving DecidableEq, Repr

/-- `suspend()`: `this.suspended_++; return this;`. -/
def Stage.suspend (s : Stage) : Stage :=
  { s with suspended := s.suspended + 1 }

/-- `isSuspended()`: `!!this.suspended_`. -/
def Stage.isSuspended (s : Stage) : Bool :=
  s.suspended != 0

/-- `isDirty()`: `return this.rootLayer_.isDirty();`. -/
def Stage.isDirty (s : Stage) : Bool :=
  s.rootLayerDirty

/-- `acquireDomChangesSync_(wantedCount)`: adds `wantedCount` to
`currentDomChangesCount` and returns `wantedCount`. -/
def Stage.acquireDomChangesSync (s : Stage) (wantedCount : Int) : Stage × Int :=
  ({ s with currentDomChangesCount := s.currentDomChangesCount + wantedCount },
    wantedCount)

/-- `acquireDomChangesAsync_(wantedCount)`:
`allowed = Math.min(maxDomChanges - currentDomChangesCount, wantedCount)`,
adds `allowed` to the counter and returns it. -/
def Stage.acquireDomChangesAsync (s : Stage) (wantedCount : Int) : Stage × Int :=
  let allowed := min (s.maxDomChanges - s.currentDomChangesCount) wantedCount
  ({ s with currentDomChangesCount := s.currentDomChangesCount + allowed },
    allowed)

/-- The `acquireDomChanges` slot: dispatches to whichever allocator is
currently installed. -/
def Stage.acquireDomChanges (s : Stage) (wantedCount : Int) : Stage × Int :=
  match s.acquirePolicy with
  | .sync => s.acquireDomChangesSync wantedCount
  | .async => s.acquireDomChangesAsync wantedCount

/-- `acquireDomChange(changeType)`: for `ELEMENT_CREATE`, `ELEMENT_ADD`,
`ELEMENT_REMOVE` returns `acquireDomChanges(1) > 0`; otherwise `true`. -/
def Stage.acquireDomChange (s : Stage) (changeType : DomChangeType) :
    Stage × Bool :=
  if changeType = .ELEMENT_CREATE ∨ changeType = .ELEMENT_ADD ∨
      changeType = .ELEMENT_REMOVE then
    let r := s.acquireDomChanges 1
    (r.1, decide (r.2 > 0))
  else
    (s, true)

/-- `blockChangesForAdding()`:
`wanted = Math.floor(Math.max(maxDomChanges - currentDomChangesCount, 0) / 3)`
and then `acquireDomChanges(wanted)`. -/
def Stage.blockChangesForAdding (s : Stage) : Stage × Int :=
  let wanted := (max (s.maxDomChanges - s.currentDomChangesCount) 0) / 3
  s.acquireDomChanges wanted

/-- `releaseDomChanges(allowed, made)`:
`currentDomChangesCount -= allowed - made`. -/
def Stage.releaseDomChanges (s : Stage) (allowed made : Int) : Stage :=
  { s with currentDomChangesCount :=
      s.currentDomChangesCount - (allowed - made) }

/-- `dispatchRenderEvent(type)`: sets `isRendering_` per the event type and
dispatches the event (returned as the list of events dispatched). -/
def Stage.dispatchRenderEvent (s : Stage) (type : EventType) :
    Stage × List EventType :=
  match type with
  | .RENDER_START => ({ s with isRendering := true }, [type])
  | .RENDER_FINISH => ({ s with isRendering := false }, [type])

/-- The pending-clip statement of `renderInternal()`: when `clipsToRender_`
is non-empty, renders each dirty clip and truncates the queue
(`clipsToRender_.length = 0`). The external `clip.render()` is abstracted by
its observable effect, `clipOps` backend operations per dirty clip rendered.
Likewise `rootLayer_.render()` below is abstracted as leaving the layer with
dirtiness `layerDirtyAfter` after `layerOps` backend operations; each step
returns the stage and the backend operations performed. (`this.credits` is
not defined on this class, so the credits branch is a no-op.) -/
def Stage.renderClipsStep (s : Stage) (clipOps : Nat) : Stage × Nat :=
  if s.clipsToRender.length ≠ 0 then
    ({ s with clipsToRender := [] },
      clipOps * (s.clipsToRender.filter (fun b => b)).length)
  else
    (s, 0)

/-- The root-layer statement of `renderInternal()`:
`if (this.rootLayer_.isDirty()) this.rootLayer_.render();`. -/
def Stage.renderLayerStep (s : Stage) (layerDirtyAfter : Bool)
    (layerOps : Nat) : Stage × Nat :=
  if s.rootLayerDirty then
    ({ s with rootLayerDirty := layerDirtyAfter }, layerOps)
  else
    (s, 0)

/-- `renderInternal()` as the sequence of its two statements:
the pending-clip loop, then the root-layer render. -/
def Stage.renderInternal (s : Stage) (clipOps : Nat) (layerDirtyAfter : Bool)
    (layerOps : Nat) : Stage × Nat :=
  let step1 := s.renderClipsStep clipOps
  let step2 := step1.1.renderLayerStep layerDirtyAfter layerOps
  (step2.1, step1.2 + step2.2)

/-- The observable outcome of a call to `render()` / `renderAsync()`:
the resulting stage state, the render events dispatched, the backend
operations performed by `renderInternal`, and the error thrown if any
(`none` = the call returned normally). -/
structure RenderOutcome where
  stage : Stage
  events : List EventType
  domOps : Nat
  error : Option ErrorCode
deriving DecidableEq, Repr

/-- `render()`: no-op when `isRendering_`; else resets the change counter,
installs the sync allocator, dispatches `RENDER_START`, throws
`CONTAINER_SHOULD_BE_DEFINED` when no container is attached, runs
`renderInternal()`, throws `DIRTY_AFTER_SYNC_RENDER` when still dirty, and
dispatches `RENDER_FINISH`. DOM attachment of the root element and the
image-loader notification (`STAGE_RENDERED`) are external glue, not part of
the scheduler state modelled here. -/
def Stage.render (s : Stage) (clipOps : Nat) (layerDirtyAfter : Bool)
    (layerOps : Nat) : RenderOutcome :=
  if s.isRendering then
    ⟨s, [], 0, none⟩
  else
    let s1 := { s with currentDomChangesCount := 0,
                       acquirePolicy := AllocPolicy.sync }
    let d1 := s1.dispatchRenderEvent .RENDER_START
    if d1.1.hasContainer = false then
      ⟨d1.1, d1.2, 0, some .CONTAINER_SHOULD_BE_DEFINED⟩
    else
      let r := d1.1.renderInternal clipOps layerDirtyAfter layerOps
      if r.1.isDirty then
        ⟨r.1, d1.2, r.2, some .DIRTY_AFTER_SYNC_RENDER⟩
      else
        let d2 := r.1.dispatchRenderEvent .RENDER_FINISH
        ⟨d2.1, d1.2 ++ d2.2, r.2, none⟩

/-- `renderAsync()`: when not rendering, throws
`CONTAINER_SHOULD_BE_DEFINED` if no container is attached, else dispatches
`RENDER_START` and schedules `renderAsync_` via `setTimeout`; always returns
the stage. The scheduled tick itself is `renderAsyncTickEntry` applied later. -/
def Stage.renderAsync (s : Stage) : RenderOutcome :=
  if s.isRendering = false then
    if s.hasContainer = false then
      ⟨s, [], 0, some .CONTAINER_SHOULD_BE_DEFINED⟩
    else
      let d := s.dispatchRenderEvent .RENDER_START
      ⟨d.1, d.2, 0, none⟩
  else
    ⟨s, [], 0, none⟩

/-- Which flush `resume()` invoked, if any. -/
inductive FlushCall
  | render
  | renderAsync
deriving DecidableEq, Repr

/-- `resume(opt_force)`:
`suspended_ = opt_force ? 0 : Math.max(suspended_ - 1, 0)`; then if the
counter is zero and a container is attached, calls `renderAsync()` in async
mode, else `render()`. Also reports which flush was called. -/
def Stage.resume (s : Stage) (opt_force : Bool) (clipOps : Nat)
    (layerDirtyAfter : Bool) (layerOps : Nat) :
    RenderOutcome × Option FlushCall :=
  let s1 := { s with suspended :=
      if opt_force then 0 else max (s.suspended - 1) 0 }
  if s1.suspended = 0 ∧ s1.hasContainer = true then
    if s1.asyncMode then
      (s1.renderAsync, some .renderAsync)
    else
      (s1.render clipOps layerDirtyAfter layerOps, some .render)
  else
    (⟨s1, [], 0, none⟩, none)

/-- The first two statements of the `renderAsync_` tick:
`this.currentDomChangesCount = 0;` and
`this.acquireDomChanges = this.acquireDomChangesAsync_;`. -/
def Stage.renderAsyncTickEntry (s : Stage) : Stage :=
  { s with currentDomChangesCount := 0,
           acquirePolicy := AllocPolicy.async }

/-- One interaction of rendering code with the installed budget allocator
during a flush: a direct `acquireDomChanges(wanted)` call, a typed
`acquireDomChange(changeType)`, a `blockChangesForAdding()` reservation, or a
`releaseDomChanges(allowed, made)` return of unused units. -/
inductive AllocOp
  | acquire (wantedCount : Int)
  | acquireOne (changeType : DomChangeType)
  | blockForAdding
  | release (allowed made : Int)
deriving DecidableEq, Repr

/-- Well-formedness of an allocator interaction, per the allocator contract:
requests are for a nonnegative number of changes, and a release returns at
most what was granted (`made` changes of `allowed` granted were used). -/
def AllocOp.wf : AllocOp → Prop
  | .acquire wantedCount => 0 ≤ wantedCount
  | .acquireOne _ => True
  | .blockForAdding => True
  | .release allowed made => 0 ≤ made ∧ made ≤ allowed

instance : DecidablePred AllocOp.wf := fun op =>
  match op with
  | .acquire w => inferInstanceAs (Decidable (0 ≤ w))
  | .acquireOne _ => inferInstanceAs (Decidable True)
  | .blockForAdding => inferInstanceAs (Decidable True)
  | .release a m => inferInstanceAs (Decidable (0 ≤ m ∧ m ≤ a))

/-- Effect of one allocator interaction on the stage. -/
def Stage.applyAllocOp (s : Stage) : AllocOp → Stage
  | .acquire wantedCount => (s.acquireDomChanges wantedCount).1
  | .acquireOne changeType => (s.acquireDomChange changeType).1
  | .blockForAdding => s.blockChangesForAdding.1
  | .release allowed made => s.releaseDomChanges allowed made

/-- Effect of a sequence of allocator interactions on the stage. -/
def Stage.applyAllocOps (s : Stage) (ops : List AllocOp) : Stage :=
  ops.foldl Stage.applyAllocOp s

/-- A concrete stage in its post-construction resting state:
`suspended_` released to 0, default quota 500, container attached,
root layer clean, no pending clips. -/
def stage0 : Stage :=
  { suspended := 0
    asyncMode := false
    hasContainer := true
    isRendering := false
    currentDomChangesCount := 0
    maxDomChanges := 500
    acquirePolicy := AllocPolicy.sync
    rootLayerDirty := false
    clipsToRender := [] }

/-- Statement of claim C3 at a given stage and request size: the async
allocator grants exactly `min(maxDomChanges - currentDomChangesCount,
wanted)`, a value in `[0, wanted]`, and adds exactly the grant to the
counter; the sync allocator grants the full request. -/
def AllocGrantProp (s : Stage) (wanted : Int) : Prop :=
  (s.acquireDomChangesAsync wanted).2 =
      min (s.maxDomChanges - s.currentDomChangesCount) wanted ∧
  0 ≤ (s.acquireDomChangesAsync wanted).2 ∧
  (s.acquireDomChangesAsync wanted).2 ≤ wanted ∧
  (s.acquireDomChangesAsync wanted).1.currentDomChangesCount =
    s.currentDomChangesCount + (s.acquireDomChangesAsync wanted).2 ∧
  (s.acquireDomChangesSync wanted).2 = wanted ∧
  (s.acquireDomChangesSync wanted).1.currentDomChangesCount =
    s.currentDomChangesCount + wanted

/-- The structural DOM change kinds. -/
def DomChangeType.structural (t : DomChangeType) : Prop :=
  t = .ELEMENT_CREATE ∨ t = .ELEMENT_ADD ∨ t = .ELEMENT_REMOVE

instance : DecidablePred DomChangeType.structural := fun t =>
  inferInstanceAs (Decidable (t = DomChangeType.ELEMENT_CREATE ∨
    t = DomChangeType.ELEMENT_ADD ∨ t = DomChangeType.ELEMENT_REMOVE))

/-- Statement of claim C4 at a given stage and change kind. -/
def AcquireKindProp (s : Stage) (t : DomChangeType) : Prop :=
  (t.structural →
    (s.acquireDomChange t =
      ((s.acquireDomChanges 1).1, decide ((s.acquireDomChanges 1).2 > 0))) ∧
    (s.acquirePolicy = .sync →
      s.acquireDomChange t =
        ({ s with currentDomChangesCount := s.currentDomChangesCount + 1 },
          true)) ∧
    (s.acquirePolicy = .async →
      s.currentDomChangesCount < s.maxDomChanges →
      s.acquireDomChange t =
        ({ s with currentDomChangesCount := s.currentDomChangesCount + 1 },
          true)) ∧
    (s.acquirePolicy = .async →
      s.currentDomChangesCount = s.maxDomChanges →
      (s.acquireDomChange t).1.currentDomChangesCount =
          s.currentDomChangesCount ∧
        (s.acquireDomChange t).2 = false)) ∧
  s.acquireDomChange .APPLY_FILL = (s, true) ∧
  s.acquireDomChange .APPLY_STROKE = (s, true)

/-- Statement of claim C1 at a given stage: `suspend()` only increments the
counter, `resume()` sets it to `max(counter - 1, 0)` (or 0 with force), both
keep it non-negative, and `resume()` triggers a flush — `renderAsync()` in
async mode, `render()` otherwise — exactly when the resulting counter is zero
and a container is attached. -/
def SuspendResumeProp (s : Stage) (force : Bool) (a : Nat) (ld : Bool)
    (b : Nat) : Prop :=
  s.suspend = { s with suspended := s.suspended + 1 } ∧
  0 ≤ s.suspend.suspended ∧
  (s.resume force a ld b).1.stage.suspended =
    (if force then 0 else max (s.suspended - 1) 0) ∧
  0 ≤ (s.resume force a ld b).1.stage.suspended ∧
  ((s.resume force a ld b).2 ≠ none ↔
    ((if force then 0 else max (s.suspended - 1) 0) = 0 ∧
      s.hasContainer = true)) ∧
  ((s.resume force a ld b).2 = some FlushCall.renderAsync ↔
    ((if force then 0 else max (s.suspended - 1) 0) = 0 ∧
      s.hasContainer = true ∧ s.asyncMode = true)) ∧
  ((s.resume force a ld b).2 = some FlushCall.render ↔
    ((if force then 0 else max (s.suspended - 1) 0) = 0 ∧
      s.hasContainer = true ∧ s.asyncMode = false))

/-- A concrete allocator trace: direct requests, a typed structural request,
a one-third reservation, a release of unused units, a free attribute change,
and an oversized request. -/
def opsEx : List AllocOp :=
  [.acquire 3, .acquireOne .ELEMENT_CREATE, .blockForAdding, .release 5 2,
    .acquireOne .APPLY_FILL, .acquire 600]

/-- Statement of claim C5 at a given stage and external layer-render effect:
`render()` either returns normally with a clean stage or throws
`DIRTY_AFTER_SYNC_RENDER`. -/
def RenderCompletenessProp (s : Stage) (a : Nat) (ld : Bool) (b : Nat) :
    Prop :=
  ((s.render a ld b).error = none ∨
    (s.render a ld b).error = some ErrorCode.DIRTY_AFTER_SYNC_RENDER) ∧
  ((s.render a ld b).error = none ↔ (s.render a ld b).stage.isDirty = false)

/-- Statement of claim C8 at a given stage and external render effects:
after a successful `render()` the root layer is clean and the pending-clip
queue empty, so an immediately repeated `render()` performs zero backend
operations and succeeds. -/
def RenderIdempotentProp (s : Stage) (a : Nat) (ld : Bool) (b c : Nat)
    (ld2 : Bool) (d : Nat) : Prop :=
  (s.render a ld b).stage.rootLayerDirty = false ∧
  (s.render a ld b).stage.clipsToRender = [] ∧
  ((s.render a ld b).stage.render c ld2 d).domOps = 0 ∧
  ((s.render a ld b).stage.render c ld2 d).error = none

/-- Statement of claim C10 at a given stage: a `render()` with no container
dispatches `RENDER_START`, throws with `isRendering_` left true, and every
later `render()`/`renderAsync()` is silently ignored. -/
def PoisonedStageProp (s : Stage) (a : Nat) (ld : Bool) (b c : Nat)
    (ld2 : Bool) (d : Nat) : Prop :=
  (s.render a ld b).error = some ErrorCode.CONTAINER_SHOULD_BE_DEFINED ∧
  (s.render a ld b).events = [EventType.RENDER_START] ∧
  (s.render a ld b).stage.isRendering = true ∧
  (s.render a ld b).stage ≠ s ∧
  (s.render a ld b).stage.render c ld2 d =
    ⟨(s.render a ld b).stage, [], 0, none⟩ ∧
  (s.render a ld b).stage.renderAsync = ⟨(s.render a ld b).stage, [], 0, none⟩

/-! ## Helper lemmas on `renderInternal` and the flush entry points -/

@[simp] lemma renderClipsStep_suspended (s : Stage) (a : Nat) :
    ((s.renderClipsStep a).1).suspended = s.suspended := by
  unfold Stage.renderClipsStep; split_ifs <;> rfl

@[simp] lemma renderClipsStep_hasContainer (s : Stage) (a : Nat) :
    ((s.renderClipsStep a).1).hasContainer = s.hasContainer := by
  unfold Stage.renderClipsStep; split_ifs <;> rfl

@[simp] lemma renderClipsStep_asyncMode (s : Stage) (a : Nat) :
    ((s.renderClipsStep a).1).asyncMode = s.asyncMode := by
  unfold Stage.renderClipsStep; split_ifs <;> rfl

@[simp] lemma renderClipsStep_isRendering (s : Stage) (a : Nat) :
    ((s.renderClipsStep a).1).isRendering = s.isRendering := by
  unfold Stage.renderClipsStep; split_ifs <;> rfl

@[simp] lemma renderClipsStep_acquirePolicy (s : Stage) (a : Nat) :
    ((s.renderClipsStep a).1).acquirePolicy = s.acquirePolicy := by
  unfold Stage.renderClipsStep; split_ifs <;> rfl

@[simp] lemma renderClipsStep_count (s : Stage) (a : Nat) :
    ((s.renderClipsStep a).1).currentDomChangesCount =
      s.currentDomChangesCount := by
  unfold Stage.renderClipsStep; split_ifs <;> rfl

@[simp] lemma renderClipsStep_maxDomChanges (s : Stage) (a : Nat) :
    ((s.renderClipsStep a).1).maxDomChanges = s.maxDomChanges := by
  unfold Stage.renderClipsStep; split_ifs <;> rfl

@[simp] lemma renderClipsStep_rootLayerDirty (s : Stage) (a : Nat) :
    ((s.renderClipsStep a).1).rootLayerDirty = s.rootLayerDirty := by
  unfold Stage.renderClipsStep; split_ifs <;> rfl

@[simp] lemma renderClipsStep_clips (s : Stage) (a : Nat) :
    ((s.renderClipsStep a).1).clipsToRender = [] := by
  unfold Stage.renderClipsStep; split_ifs with h <;> simp_all

@[simp] lemma renderLayerStep_suspended (s : Stage) (ld : Bool) (b : Nat) :
    ((s.renderLayerStep ld b).1).suspended = s.suspended := by
  unfold Stage.renderLayerStep; split_ifs <;> rfl

@[simp] lemma renderLayerStep_hasContainer (s : Stage) (ld : Bool) (b : Nat) :
    ((s.renderLayerStep ld b).1).hasContainer = s.hasContainer := by
  unfold Stage.renderLayerStep; split_ifs <;> rfl

@[simp] lemma renderLayerStep_asyncMode (s : Stage) (ld : Bool) (b : Nat) :
    ((s.renderLayerStep ld b).1).asyncMode = s.asyncMode := by
  unfold Stage.renderLayerStep; split_ifs <;> rfl

@[simp] lemma renderLayerStep_isRendering (s : Stage) (ld : Bool) (b : Nat) :
    ((s.renderLayerStep ld b).1).isRendering = s.isRendering := by
  unfold Stage.renderLayerStep; split_ifs <;> rfl

@[simp] lemma renderLayerStep_acquirePolicy (s : Stage) (ld : Bool) (b : Nat) :
    ((s.renderLayerStep ld b).1).acquirePolicy = s.acquirePolicy := by
  unfold Stage.renderLayerStep; split_ifs <;> rfl

@[simp] lemma renderLayerStep_count (s : Stage) (ld : Bool) (b : Nat) :
    ((s.renderLayerStep ld b).1).currentDomChangesCount =
      s.currentDomChangesCount := by
  unfold Stage.renderLayerStep; split_ifs <;> rfl

@[simp] lemma renderLayerStep_maxDomChanges (s : Stage) (ld : Bool) (b : Nat) :
    ((s.renderLayerStep ld b).1).maxDomChanges = s.maxDomChanges := by
  unfold Stage.renderLayerStep; split_ifs <;> rfl

@[simp] lemma renderLayerStep_clips (s : Stage) (ld : Bool) (b : Nat) :
    ((s.renderLayerStep ld b).1).clipsToRender = s.clipsToRender := by
  unfold Stage.renderLayerStep; split_ifs <;> rfl

@[simp] lemma renderLayerStep_rootLayerDirty (s : Stage) (ld : Bool) (b : Nat) :
    ((s.renderLayerStep ld b).1).rootLayerDirty =
      if s.rootLayerDirty then ld else false := by
  unfold Stage.renderLayerStep; split_ifs with h <;> simp_all

@[simp] lemma renderInternal_suspended (s : Stage) (a b : Nat) (ld : Bool) :
    ((s.renderInternal a ld b).1).suspended = s.suspended := by
  simp [Stage.renderInternal]

@[simp] lemma renderInternal_hasContainer (s : Stage) (a b : Nat) (ld : Bool) :
    ((s.renderInternal a ld b).1).hasContainer = s.hasContainer := by
  simp [Stage.renderInternal]

@[simp] lemma renderInternal_asyncMode (s : Stage) (a b : Nat) (ld : Bool) :
    ((s.renderInternal a ld b).1).asyncMode = s.asyncMode := by
  simp [Stage.renderInternal]

@[simp] lemma renderInternal_isRendering (s : Stage) (a b : Nat) (ld : Bool) :
    ((s.renderInternal a ld b).1).isRendering = s.isRendering := by
  simp [Stage.renderInternal]

@[simp] lemma renderInternal_acquirePolicy (s : Stage) (a b : Nat) (ld : Bool) :
    ((s.renderInternal a ld b).1).acquirePolicy = s.acquirePolicy := by
  simp [Stage.renderInternal]

@[simp] lemma renderInternal_count (s : Stage) (a b : Nat) (ld : Bool) :
    ((s.renderInternal a ld b).1).currentDomChangesCount =
      s.currentDomChangesCount := by
  simp [Stage.renderInternal]

@[simp] lemma renderInternal_maxDomChanges (s : Stage) (a b : Nat) (ld : Bool) :
    ((s.renderInternal a ld b).1).maxDomChanges = s.maxDomChanges := by
  simp [Stage.renderInternal]

@[simp] lemma renderInternal_clips (s : Stage) (a b : Nat) (ld : Bool) :
    ((s.renderInternal a ld b).1).clipsToRender = [] := by
  simp [Stage.renderInternal]

@[simp] lemma renderInternal_rootLayerDirty (s : Stage) (a b : Nat) (ld : Bool) :
    ((s.renderInternal a ld b).1).rootLayerDirty =
      if s.rootLayerDirty then ld else false := by
  simp [Stage.renderInternal]

lemma renderInternal_clean (s : Stage) (a b : Nat) (ld : Bool)
    (h1 : s.clipsToRender = []) (h2 : s.rootLayerDirty = false) :
    s.renderInternal a ld b = (s, 0) := by
  simp [Stage.renderInternal, Stage.renderClipsStep, Stage.renderLayerStep,
    h1, h2]

@[simp] lemma render_stage_suspended (s : Stage) (a b : Nat) (ld : Bool) :
    (s.render a ld b).stage.suspended = s.suspended := by
  simp only [Stage.render, Stage.dispatchRenderEvent]
  split_ifs <;> simp

@[simp] lemma renderAsync_stage_suspended (s : Stage) :
    s.renderAsync.stage.suspended = s.suspended := by
  simp only [Stage.renderAsync, Stage.dispatchRenderEvent]
  split_ifs <;> simp

/-! ## Claim theorems -/

/-- C3: for every nonnegative `wanted` (with the per-tick counter within its
quota, as it always is while the async allocator is installed),
`acquireDomChangesAsync_` returns exactly
`min(maxDomChanges - currentDomChangesCount, wanted)`, which lies in
`[0, wanted]`, and increases `currentDomChangesCount` by exactly the granted
amount; `acquireDomChangesSync_` always grants the full request. -/
theorem acquireDomChanges_grant_spec (s : Stage) (wanted : Int)
    (hw : 0 ≤ wanted) (hc : s.currentDomChangesCount ≤ s.maxDomChanges) :
    AllocGrantProp s wanted := by
  unfold AllocGrantProp Stage.acquireDomChangesAsync Stage.acquireDomChangesSync
  dsimp only
  refine ⟨rfl, ?_, ?_, rfl, rfl, rfl⟩ <;> omega

/-- Witness for C3 at the concrete post-construction stage and request 7. -/
theorem acquireDomChanges_grant_spec_witness : AllocGrantProp stage0 7 :=
  acquireDomChanges_grant_spec stage0 7 (by decide) (by decide)

/-- C4: `acquireDomChange` charges exactly one unit against the installed
allocator for the structural kinds `ELEMENT_CREATE`, `ELEMENT_ADD`,
`ELEMENT_REMOVE` — under the sync policy the unit is always granted and the
call returns `true`; under the async policy the unit is granted (counter +1,
`true`) while budget remains and denied (counter unchanged, `false`) when the
budget is exhausted — and returns `true` without touching the budget for
`APPLY_FILL` and `APPLY_STROKE` under both policies. -/
theorem acquireDomChange_kinds (s : Stage) (t : DomChangeType) :
    AcquireKindProp s t := by
  unfold AcquireKindProp
  refine ⟨fun ht => ?_, by simp [Stage.acquireDomChange],
    by simp [Stage.acquireDomChange]⟩
  have hif : s.acquireDomChange t =
      ((s.acquireDomChanges 1).1, decide ((s.acquireDomChanges 1).2 > 0)) := by
    rcases ht with h | h | h <;> subst h <;> simp [Stage.acquireDomChange]
  refine ⟨hif, fun hp => ?_, fun hp hlt => ?_, fun hp heq => ?_⟩
  · rw [hif]
    simp [Stage.acquireDomChanges, hp, Stage.acquireDomChangesSync]
  · rw [hif]
    have hmin : min (s.maxDomChanges - s.currentDomChangesCount) 1 = 1 := by
      omega
    simp [Stage.acquireDomChanges, hp, Stage.acquireDomChangesAsync, hmin]
  · rw [hif]
    have hmin : min (s.maxDomChanges - s.currentDomChangesCount) 1 = 0 := by
      omega
    simp [Stage.acquireDomChanges, hp, Stage.acquireDomChangesAsync, hmin]

/-- C9: `blockChangesForAdding` requests exactly
`floor(max(maxDomChanges - currentDomChangesCount, 0) / 3)` changes from the
installed allocator and returns the granted amount, which never exceeds one
third of the remaining per-tick budget. -/
theorem blockChangesForAdding_spec (s : Stage) :
    s.blockChangesForAdding =
      s.acquireDomChanges
        ((max (s.maxDomChanges - s.currentDomChangesCount) 0) / 3) ∧
    s.blockChangesForAdding.2 ≤
      (max (s.maxDomChanges - s.currentDomChangesCount) 0) / 3 ∧
    3 * ((max (s.maxDomChanges - s.currentDomChangesCount) 0) / 3) ≤
      max (s.maxDomChanges - s.currentDomChangesCount) 0 := by
  refine ⟨rfl, ?_, ?_⟩
  · cases hp : s.acquirePolicy
    · simp [Stage.blockChangesForAdding, Stage.acquireDomChanges, hp,
        Stage.acquireDomChangesSync]
    · simp only [Stage.blockChangesForAdding, Stage.acquireDomChanges, hp,
        Stage.acquireDomChangesAsync]
      omega
  · omega

/-- C6: when no container is attached and no flush is in progress, both
`render()` and `renderAsync()` throw `CONTAINER_SHOULD_BE_DEFINED`, reported
in the outcome rather than swallowed. -/
theorem flush_without_container_throws (s : Stage) (a b : Nat) (ld : Bool)
    (hr : s.isRendering = false) (hc : s.hasContainer = false) :
    (s.render a ld b).error = some ErrorCode.CONTAINER_SHOULD_BE_DEFINED ∧
    s.renderAsync.error = some ErrorCode.CONTAINER_SHOULD_BE_DEFINED := by
  constructor
  · simp [Stage.render, Stage.dispatchRenderEvent, hr, hc]
  · simp [Stage.renderAsync, hr, hc]

/-- Witness for C6 at a concrete detached stage. -/
theorem flush_without_container_throws_witness :
    (({ stage0 with hasContainer := false } : Stage).render 2 false
        3).error = some ErrorCode.CONTAINER_SHOULD_BE_DEFINED ∧
    ({ stage0 with hasContainer := false } : Stage).renderAsync.error =
      some ErrorCode.CONTAINER_SHOULD_BE_DEFINED :=
  flush_without_container_throws { stage0 with hasContainer := false } 2 3
    false (by decide) (by decide)

/-- C7: while a flush is in progress (`isRendering_` true), `render()` and
`renderAsync()` return with the stage completely unchanged, dispatch no
events, perform no DOM operations and throw no error. -/
theorem reentrant_flush_noop (s : Stage) (a b : Nat) (ld : Bool)
    (h : s.isRendering = true) :
    s.render a ld b = ⟨s, [], 0, none⟩ ∧ s.renderAsync = ⟨s, [], 0, none⟩ := by
  constructor
  · simp [Stage.render, h]
  · simp [Stage.renderAsync, h]

/-- Witness for C7 at a concrete mid-flush stage. -/
theorem reentrant_flush_noop_witness :
    ({ stage0 with isRendering := true } : Stage).render 2 false 3 =
      ⟨{ stage0 with isRendering := true }, [], 0, none⟩ ∧
    ({ stage0 with isRendering := true } : Stage).renderAsync =
      ⟨{ stage0 with isRendering := true }, [], 0, none⟩ :=
  reentrant_flush_noop { stage0 with isRendering := true } 2 3 false
    (by decide)

/-- C1: for every stage with a non-negative suspend counter (the counter
starts at 1 and only these operations touch it), `suspend()` increments the
counter by one and performs no flush, `resume()` without force sets it to
`max(counter - 1, 0)` and with force to 0 — so it stays non-negative — and
`resume()` triggers a flush (`render()` when `asyncMode_` is off,
`renderAsync()` when it is on) if and only if the resulting counter is zero
and a container is attached. -/
theorem suspend_resume_spec (s : Stage) (force : Bool) (a b : Nat)
    (ld : Bool) (hs : 0 ≤ s.suspended) : SuspendResumeProp s force a ld b := by
  have hsusp : (s.resume force a ld b).1.stage.suspended =
      (if force then 0 else max (s.suspended - 1) 0) := by
    simp only [Stage.resume]
    split_ifs <;> simp_all
  have hcall : (s.resume force a ld b).2 =
      (if ((if force then (0 : Int) else max (s.suspended - 1) 0) = 0 ∧
          s.hasContainer = true) then
        (if s.asyncMode then some FlushCall.renderAsync
          else some FlushCall.render)
      else none) := by
    simp only [Stage.resume]
    split_ifs <;> simp_all
  have hinc : s.suspend.suspended = s.suspended + 1 := rfl
  unfold SuspendResumeProp
  refine ⟨rfl, by omega, hsusp, ?_, ?_, ?_, ?_⟩
  · rw [hsusp]; split_ifs <;> omega
  · rw [hcall]; split_ifs <;> simp_all
  · rw [hcall]; split_ifs <;> simp_all
  · rw [hcall]; split_ifs <;> simp_all

/-- Witness for C1 at the concrete post-construction stage. -/
theorem suspend_resume_spec_witness : SuspendResumeProp stage0 false 2 false 3 :=
  suspend_resume_spec stage0 false 2 3 false (by decide)

/-- Budget safety of one well-formed allocator interaction under the async
policy: the policy and quota are untouched and the counter stays within the
quota. -/
lemma applyAllocOp_async_bound (s : Stage) (op : AllocOp) (hwf : op.wf)
    (hp : s.acquirePolicy = AllocPolicy.async)
    (hle : s.currentDomChangesCount ≤ s.maxDomChanges) :
    (s.applyAllocOp op).acquirePolicy = AllocPolicy.async ∧
    (s.applyAllocOp op).maxDomChanges = s.maxDomChanges ∧
    (s.applyAllocOp op).currentDomChangesCount ≤
      (s.applyAllocOp op).maxDomChanges := by
  cases op with
  | acquire w =>
      simp only [AllocOp.wf] at hwf
      refine ⟨?_, ?_, ?_⟩ <;>
        simp only [Stage.applyAllocOp, Stage.acquireDomChanges, hp,
          Stage.acquireDomChangesAsync] <;>
        first
          | rfl
          | omega
  | acquireOne t =>
      cases t <;> refine ⟨?_, ?_, ?_⟩ <;>
        simp only [Stage.applyAllocOp, Stage.acquireDomChange,
          Stage.acquireDomChanges, hp, Stage.acquireDomChangesAsync] <;>
        simp_all <;>
        first
          | rfl
          | omega
  | blockForAdding =>
      refine ⟨?_, ?_, ?_⟩ <;>
        simp only [Stage.applyAllocOp, Stage.blockChangesForAdding,
          Stage.acquireDomChanges, hp, Stage.acquireDomChangesAsync] <;>
        first
          | rfl
          | omega
  | release allowed made =>
      simp only [AllocOp.wf] at hwf
      refine ⟨?_, ?_, ?_⟩ <;>
        simp only [Stage.applyAllocOp, Stage.releaseDomChanges] <;>
        first
          | assumption
          | rfl
          | omega

/-- Budget safety of a whole well-formed allocator trace under the async
policy. -/
lemma applyAllocOps_async_bound (ops : List AllocOp) (s : Stage)
    (hwf : ∀ op ∈ ops, op.wf) (hp : s.acquirePolicy = AllocPolicy.async)
    (hle : s.currentDomChangesCount ≤ s.maxDomChanges) :
    (s.applyAllocOps ops).currentDomChangesCount ≤ s.maxDomChanges := by
  induction ops generalizing s with
  | nil => simpa [Stage.applyAllocOps] using hle
  | cons op ops ih =>
      have h1 := applyAllocOp_async_bound s op (hwf op (by simp)) hp hle
      have hstep : s.applyAllocOps (op :: ops) =
          (s.applyAllocOp op).applyAllocOps ops := rfl
      rw [hstep]
      have h2 := ih (s.applyAllocOp op)
        (fun o ho => hwf o (List.mem_cons_of_mem _ ho)) h1.1
        (h1.2.1 ▸ h1.2.2)
      rw [h1.2.1] at h2
      exact h2

/-- C2: the `renderAsync_` tick begins by resetting
`currentDomChangesCount` to zero and installing the capped allocator
(`acquireDomChangesAsync_`), and for every well-formed sequence of allocator
interactions performed during the tick the counter never exceeds
`maxDomChanges`. -/
theorem async_tick_budget_conservation (s : Stage) (ops : List AllocOp)
    (hmax : 0 ≤ s.maxDomChanges) (hwf : ∀ op ∈ ops, op.wf) :
    s.renderAsyncTickEntry.currentDomChangesCount = 0 ∧
    s.renderAsyncTickEntry.acquirePolicy = AllocPolicy.async ∧
    (s.renderAsyncTickEntry.applyAllocOps ops).currentDomChangesCount ≤
      s.maxDomChanges := by
  refine ⟨rfl, rfl, ?_⟩
  exact applyAllocOps_async_bound ops s.renderAsyncTickEntry hwf rfl
    (by simpa [Stage.renderAsyncTickEntry] using hmax)

/-- Witness for C2 at the concrete post-construction stage and trace. -/
theorem async_tick_budget_conservation_witness :
    stage0.renderAsyncTickEntry.currentDomChangesCount = 0 ∧
    stage0.renderAsyncTickEntry.acquirePolicy = AllocPolicy.async ∧
    (stage0.renderAsyncTickEntry.applyAllocOps opsEx).currentDomChangesCount ≤
      stage0.maxDomChanges :=
  async_tick_budget_conservation stage0 opsEx (by decide) (by decide)

/-- C5: a synchronous `render()` that is not the ignored re-entrant case and
has a container attached either returns normally — in which case `isDirty()`
is false afterwards — or throws the fatal `DIRTY_AFTER_SYNC_RENDER`
internal-consistency error, exactly when dirty state remains after the
unbounded internal flush. -/
theorem sync_render_completeness (s : Stage) (a b : Nat) (ld : Bool)
    (hr : s.isRendering = false) (hc : s.hasContainer = true) :
    RenderCompletenessProp s a ld b := by
  unfold RenderCompletenessProp
  simp [Stage.render, Stage.dispatchRenderEvent, Stage.isDirty, hr, hc]
  split_ifs <;> simp_all

/-- Witness for C5 at a concrete dirty stage whose layer render drains it. -/
theorem sync_render_completeness_witness :
    RenderCompletenessProp { stage0 with rootLayerDirty := true } 2 false 3 :=
  sync_render_completeness { stage0 with rootLayerDirty := true } 2 3 false
    (by decide) (by decide)

/-- C8: calling the synchronous `render()` twice in a row with no intervening
mutation performs zero backend operations the second time: the first
successful call leaves the root layer clean and the pending-clip queue empty,
so the second call's `renderInternal()` skips rendering them entirely. -/
theorem sync_render_idempotent (s : Stage) (a b c d : Nat) (ld ld2 : Bool)
    (hr : s.isRendering = false) (hc : s.hasContainer = true)
    (hok : (s.render a ld b).error = none) :
    RenderIdempotentProp s a ld b c ld2 d := by
  unfold RenderIdempotentProp
  simp [Stage.render, Stage.dispatchRenderEvent, Stage.isDirty, hr, hc]
    at hok ⊢
  split_ifs at hok ⊢ <;> simp_all [renderInternal_clean]

/-- Witness for C8 at a concrete dirty stage with pending clips. -/
theorem sync_render_idempotent_witness :
    RenderIdempotentProp
      { stage0 with rootLayerDirty := true, clipsToRender := [true, false] }
      2 false 3 5 true 7 :=
  sync_render_idempotent
    { stage0 with rootLayerDirty := true, clipsToRender := [true, false] }
    2 3 5 7 false true (by decide) (by decide) (by decide)

/-- C10: `render()` called with no container attached dispatches
`RENDER_START` (setting the rendering-in-progress flag) before checking the
container, then throws without clearing the flag: afterwards `isRendering()`
is true, the stage state is not the one before the call, and every subsequent
`render()` or `renderAsync()` call is silently ignored. -/
theorem render_error_poisons_rendering_flag (s : Stage) (a b c d : Nat)
    (ld ld2 : Bool) (hr : s.isRendering = false)
    (hc : s.hasContainer = false) : PoisonedStageProp s a ld b c ld2 d := by
  have hstage : (s.render a ld b).stage =
      { s with currentDomChangesCount := 0,
               acquirePolicy := AllocPolicy.sync, isRendering := true } := by
    simp [Stage.render, Stage.dispatchRenderEvent, hr, hc]
  unfold PoisonedStageProp
  refine ⟨?_, ?_, ?_, ?_, ?_, ?_⟩
  · simp [Stage.render, Stage.dispatchRenderEvent, hr, hc]
  · simp [Stage.render, Stage.dispatchRenderEvent, hr, hc]
  · rw [hstage]
  · rw [hstage]
    intro heq
    have hflag := congrArg Stage.isRendering heq
    simp [hr] at hflag
  · rw [hstage]
    simp [Stage.render]
  · rw [hstage]
    simp [Stage.renderAsync]

/-- Witness for C10 at a concrete detached stage. -/
theorem render_error_poisons_rendering_flag_witness :
    PoisonedStageProp { stage0 with hasContainer := false } 2 false 3 5 true
      7 :=
  render_error_poisons_rendering_flag { stage0 with hasContainer := false }
    2 3 5 7 false true (by decide) (by decide)

end AcGraph
